import Mathlib

/-!
Verification development for the StarrTours pricing-calendar pipeline
(`PricingCalendar.py`).  The four pipeline stages — monthly-totals
extraction, dispatch normalization, daily feature building and band
classification — are embedded as executable Lean definitions, translated
from the Python source.  Machine reals (Python floats) are modelled as
exact rationals (`Rat`); the pandas date parser is abstracted by letting a
cell carry its parse result; tables are lists of rows.
-/

/-- A substring check on character lists: `occursAt need hay` is true when
`need` is an initial segment of `hay` (models Python `str.startswith`,
used as the building block of `in`). -/
def occursAt : List Char → List Char → Bool
  | [], _ => true
  | _ :: _, [] => false
  | a :: as, b :: bs => a == b && occursAt as bs

/-- `occursIn need hay` is true when `need` occurs as a contiguous
substring of `hay` (models Python `need in hay` on strings). -/
def occursIn (need : List Char) : List Char → Bool
  | [] => occursAt need []
  | c :: cs => occursAt need (c :: cs) || occursIn need cs

/-- Lower-cased character list of a string (models Python `str.lower` on
the ASCII inputs of this pipeline). -/
def lowerStr (s : String) : List Char := s.data.map Char.toLower

/-- Urban keyword set of `infer_complexity` (source line 41). -/
def urban_keywords : List String := ["nyc", "manhattan", "dc", "downtown"]

/-- Leisure keyword set of `infer_complexity` (source line 43). -/
def leisure_keywords : List String := ["hershey", "dorney", "park", "amusement"]

/-- `containsAny keys text` models `any(x in text for x in keys)`. -/
def containsAny (keys : List String) (text : List Char) : Bool :=
  keys.any fun k => occursIn k.data text

/-- `infer_complexity` (source lines 35–45): the three descriptive fields
are joined with spaces, lower-cased, and matched against the urban keyword
set first, then the leisure keyword set. -/
def infer_complexity (route dest group : String) : Int :=
  let text := lowerStr (route ++ " " ++ dest ++ " " ++ group)
  if containsAny urban_keywords text then 1
  else if containsAny leisure_keywords text then -1
  else 0

/-- A raw table cell.  `na` is a missing value (pandas NaN); `text` is a
string cell that does not parse as a date; `dateLike d s` is a cell whose
string form is `s` and which `pd.to_datetime` parses to the calendar date
`d` (year, month, day).  The pandas date parser itself is external-library
behaviour and is abstracted by this constructor. -/
inductive Cell
  | na : Cell
  | text : String → Cell
  | dateLike : Nat × Nat × Nat → String → Cell
deriving DecidableEq, Repr

/-- `notna` on a cell (pandas `Series.notna`): only `na` is missing. -/
def Cell.notna : Cell → Bool
  | Cell.na => false
  | _ => true

/-- `str(...)` of a cell: pandas renders NaN as `"nan"`. -/
def Cell.str : Cell → String
  | Cell.na => "nan"
  | Cell.text s => s
  | Cell.dateLike _ s => s

/-- `pd.to_datetime(..., errors=coerce)` on a cell, reduced to a calendar
date by `.dt.date`: non-date cells coerce to NaT (`none`). -/
def Cell.parseDate : Cell → Option (Nat × Nat × Nat)
  | Cell.dateLike d _ => some d
  | _ => none

/-- A raw dispatch row: the cells of one record, keyed by column name. -/
def DRow := List (String × Cell)

/-- A raw dispatch table: its column names and its rows. -/
structure DTable where
  cols : List String
  rows : List DRow

/-- Cell of a row at a column, `Cell.na` when the row has no such cell. -/
def rowCell (r : DRow) (c : String) : Cell :=
  match r.find? (fun p => p.1 == c) with
  | some p => p.2
  | none => Cell.na

/-- `str(row.get(c, ""))`: the default `""` applies when the column is
absent from the table; a present-but-missing cell renders as `"nan"`. -/
def rowStr (cols : List String) (r : DRow) (c : String) : String :=
  if c ∈ cols then (rowCell r c).str else ""

/-- A validated dispatch record: departure date and complexity score. -/
structure Trip where
  date : Nat × Nat × Nat
  complexity : Int
deriving DecidableEq, Repr

/-- `load_dispatch` (source lines 29–48).  Accessing the `Booking ID` and
`First Departure` columns raises a `KeyError` when they are absent; the
three descriptive columns are read through `row.get` with a default and
never raise.  Rows with a missing booking id or an unparseable departure
date are silently dropped; each surviving row becomes one `Trip`. -/
def load_dispatch (t : DTable) : Except String (List Trip) :=
  if "Booking ID" ∈ t.cols then
    let kept := t.rows.filter fun r => (rowCell r "Booking ID").notna
    if "First Departure" ∈ t.cols then
      let dated := kept.filterMap fun r =>
        (rowCell r "First Departure").parseDate.map fun d => (r, d)
      Except.ok (dated.map fun rd =>
        { date := rd.2
          complexity := infer_complexity
            (rowStr t.cols rd.1 "Route Description")
            (rowStr t.cols rd.1 "Destination")
            (rowStr t.cols rd.1 "Group Name") })
    else Except.error "KeyError: First Departure"
  else Except.error "KeyError: Booking ID"

/-- The month-name table of `extract_monthly_totals` (source lines 16–20),
in its Python insertion order. -/
def month_map : List (String × Nat) :=
  [("January", 1), ("February", 2), ("March", 3), ("April", 4),
   ("May", 5), ("June", 6), ("July", 7), ("August", 8),
   ("September", 9), ("October", 10), ("November", 11), ("December", 12)]

/-- First maximal run of decimal digits in a character list (the regex
`(\d+)` of source line 24); `none` when the string has no digit. -/
def firstDigitRun : List Char → Option (List Char)
  | [] => none
  | c :: cs =>
    if c.isDigit then some (c :: cs.takeWhile Char.isDigit)
    else firstDigitRun cs

/-- Numeric value of a digit run. -/
def digitsToNat (ds : List Char) : Nat :=
  ds.foldl (fun a c => a * 10 + (c.toNat - 48)) 0

/-- Digit extraction of one cell: `.str.extract((\d+))` then `int`;
cells with no digits are dropped (`.dropna()`), not treated as zero. -/
def cellDigits (s : String) : Option Nat :=
  (firstDigitRun s.data).map digitsToNat

/-- `extract_monthly_totals` (source lines 12–26).  The first four rows
are discarded; the next row becomes the header (`iloc[0]` raises an
`IndexError` when no row is left, i.e. when the table has fewer than five
rows); the remaining rows are data.  If some month name occurs more than
once in the header, selecting that label yields a DataFrame instead of a
Series and the `.str` accessor raises an `AttributeError`, aborting the
whole extraction.  Otherwise each month name present in the header is
mapped to the sum of the digit runs extracted from its (unique) column's
cells; cells beyond a ragged row's end are missing values and render as
`"nan"`. -/
def extract_monthly_totals (t : List (List String)) :
    Except String (List (Nat × Nat)) :=
  match t.drop 4 with
  | [] => Except.error "IndexError: single positional indexer is out-of-bounds"
  | header :: dataRows =>
    if month_map.any fun p => decide (2 ≤ List.count p.1 header) then
      Except.error "AttributeError: Can only use .str accessor with string values"
    else
      Except.ok (month_map.filterMap fun p =>
        if p.1 ∈ header then
          some (p.2,
            ((dataRows.map fun r =>
              r.getD (header.findIdx fun s => s == p.1) "nan").filterMap
                cellDigits).sum)
        else none)

/-- `get_season` (source lines 51–59). -/
def get_season (month : Nat) : String :=
  if month ∈ [12, 1, 2] then "Winter"
  else if month ∈ [3, 4, 5] then "Spring"
  else if month ∈ [6, 7, 8] then "Summer"
  else "Fall"

/-- The feature record handed to `classify_band` (the dict literal at
source lines 116–122).  Python floats are modelled as exact rationals. -/
structure FeatureRow where
  coachPressure : Rat
  weekday : String
  season : String
  tripsScheduled : Nat
  avgComplexity : Rat
deriving Repr

/-- Pressure contribution of the score (source lines 64–69). -/
def pressure_points (p : Rat) : Rat :=
  if p ≥ 9/10 then 3 else if p ≥ 7/10 then 2 else if p ≥ 5/10 then 1 else 0

/-- Weekday contribution of the score (source lines 70–71). -/
def weekday_points (w : String) : Rat :=
  if w ∈ ["Friday", "Saturday", "Sunday"] then 1 else 0

/-- Season contribution of the score (source lines 72–77). -/
def season_points (s : String) : Rat :=
  if s = "Winter" then 1 else if s = "Spring" then 2
  else if s = "Fall" then 1 else 0

/-- Trip-count contribution of the score (source lines 78–81). -/
def trip_points (n : Nat) : Rat :=
  if n ≥ 5 then 2 else if n ≥ 3 then 1 else 0

/-- The score accumulated by `classify_band` (source lines 63–82): the
four integer contributions plus the average complexity. -/
def band_score (r : FeatureRow) : Rat :=
  pressure_points r.coachPressure + weekday_points r.weekday
    + season_points r.season + trip_points r.tripsScheduled
    + r.avgComplexity

/-- `classify_band` (source lines 62–95): band label and reason string
from the final score, first matching threshold wins. -/
def classify_band (r : FeatureRow) : String × String :=
  let score := band_score r
  if score ≥ 7 then
    ("B (50%)", "High volume, peak season, complex trips")
  else if score ≥ 6 then
    ("C+ (45%)", "Very active day with high potential")
  else if score ≥ 5 then
    ("C (40%)", "Healthy demand with multiple trip drivers")
  else if score ≥ 4 then
    ("D+ (35%)", "Mid-level day with moderate complexity")
  else if score ≥ 3 then
    ("D (30%)", "Low trip count but seasonal factors")
  else
    ("E+ (25%)", "Soft demand day with low pressure and simple trips")

/-- The six band labels of `classify_band`, in threshold order. -/
def bandLabels : List String :=
  ["B (50%)", "C+ (45%)", "C (40%)", "D+ (35%)", "D (30%)", "E+ (25%)"]

/-- `calendar.isleap` (used at source line 101): Gregorian leap rule. -/
def isleap (y : Nat) : Bool :=
  y % 4 == 0 && (y % 100 != 0 || y % 400 == 0)

/-- Number of days of a month (1–12) of a leap or common year. -/
def monthLength (leap : Bool) (m : Nat) : Nat :=
  if m = 2 then (if leap then 29 else 28)
  else if m ∈ [4, 6, 9, 11] then 30 else 31

/-- Walk the months to convert a 0-based day-of-year offset to a
`(month, day)` pair; `fuel` bounds the number of month advances. -/
def ordToDateAux : Nat → Bool → Nat → Nat → Nat × Nat
  | 0, _, m, rem => (m, rem + 1)
  | fuel + 1, leap, m, rem =>
    if rem < monthLength leap m then (m, rem + 1)
    else ordToDateAux fuel leap (m + 1) (rem - monthLength leap m)

/-- `(month, day)` of the `i`-th day of the year (0-based): the embedding
of `datetime(year, 1, 1) + timedelta(days=i)` (source lines 100–107) for
`i` within the year. -/
def dateOfOrdinal (leap : Bool) (i : Nat) : Nat × Nat :=
  ordToDateAux 11 leap 1 i

/-- Leap days strictly before year `y` in the proleptic Gregorian
calendar. -/
def leapsBefore (y : Nat) : Nat :=
  (y - 1) / 4 - (y - 1) / 100 + (y - 1) / 400

/-- Weekday index of January 1 of year `y`, 0 = Monday (Python's
`date.weekday` convention; `date(1, 1, 1)` is a Monday). -/
def jan1WeekdayIdx (y : Nat) : Nat :=
  (365 * (y - 1) + leapsBefore y) % 7

/-- Full English weekday names, indexed from Monday (strftime `%A`). -/
def weekdayName (i : Nat) : String :=
  ["Monday", "Tuesday", "Wednesday", "Thursday", "Friday",
   "Saturday", "Sunday"].getD i "Monday"

/-- Full English month names, 1-based (strftime `%B`). -/
def monthName (m : Nat) : String :=
  ["January", "February", "March", "April", "May", "June", "July",
   "August", "September", "October", "November", "December"].getD (m - 1) ""

/-- `dict.get(month, 0)` on the monthly-totals map (source line 110). -/
def dictGet (mt : List (Nat × Nat)) (k : Nat) : Nat :=
  match mt.find? (fun p => p.1 == k) with
  | some p => p.2
  | none => 0

/-- `max(monthly_totals.values())` over a value list, 0 when empty (the
empty case is guarded before use, matching Python's `max` error). -/
def vmax : List Nat → Nat
  | [] => 0
  | v :: vs => max v (vmax vs)

/-- Floor of a rational (numerator and denominator are kept normalized,
so Euclidean division of the numerator gives the floor). -/
def ratFloor (q : Rat) : Int := Int.ediv q.num (q.den : Int)

/-- Round-half-to-even of a rational to an integer, the idealization of
Python `round` on floats (no claim depends on the tie rule). -/
def roundHalfEven (q : Rat) : Int :=
  let f := ratFloor q
  let r := q - (f : Rat)
  if r < 1/2 then f
  else if 1/2 < r then f + 1
  else if f % 2 = 0 then f else f + 1

/-- `round(x, 2)` (source lines 132 and 134). -/
def round2 (q : Rat) : Rat := ((roundHalfEven (q * 100) : Int) : Rat) / 100

/-- One exported calendar row (the dict appended at source lines
126–137). -/
structure CalendarRow where
  fullDate : Nat × Nat × Nat
  formattedDate : String
  month : String
  weekday : String
  season : String
  coachPressure : Rat
  tripsScheduled : Nat
  avgComplexity : Rat
  band : String
  reason : String
deriving Repr

/-- The body of `build_calendar`'s per-day loop (source lines 104–137):
the daily feature builder.  `i` is the 0-based day-of-year offset and
`maxPressure` the precomputed maximum monthly total. -/
def day_row (year : Nat) (leap : Bool) (mt : List (Nat × Nat))
    (maxPressure : Nat) (trips : List Trip) (i : Nat) : CalendarRow :=
  let md := dateOfOrdinal leap i
  let day : Nat × Nat × Nat := (year, md.1, md.2)
  let weekday := weekdayName ((jan1WeekdayIdx year + i) % 7)
  let season := get_season md.1
  let pressure : Rat := (dictGet mt md.1 : Rat) / (maxPressure : Rat)
  let trips_today := trips.filter fun t => decide (t.date = day)
  let trip_count := trips_today.length
  let complexity_avg : Rat :=
    if trip_count > 0 then
      (((trips_today.map Trip.complexity).sum : Int) : Rat) / (trip_count : Rat)
    else 0
  let br := classify_band
    { coachPressure := pressure, weekday := weekday, season := season
      tripsScheduled := trip_count, avgComplexity := complexity_avg }
  { fullDate := day
    formattedDate := monthName md.1 ++ " " ++ toString md.2
    month := monthName md.1
    weekday := weekday
    season := season
    coachPressure := round2 pressure
    tripsScheduled := trip_count
    avgComplexity := round2 complexity_avg
    band := br.1
    reason := br.2 }

/-- `build_calendar` (source lines 98–139).  `max` on an empty dict raises
a `ValueError`; an all-zero map raises a `ZeroDivisionError` at the first
loop iteration — the divisor is loop-invariant, so the check is hoisted
here and in either case no row is produced. -/
def build_calendar (year : Nat) (mt : List (Nat × Nat)) (trips : List Trip) :
    Except String (List CalendarRow) :=
  if mt = [] then Except.error "max() arg is an empty sequence"
  else
    let mp := vmax (mt.map Prod.snd)
    if mp = 0 then Except.error "division by zero"
    else
      Except.ok ((List.range (if isleap year then 366 else 365)).map
        (day_row year (isleap year) mt mp trips))

/-- Successor of a calendar date (spec notion used to state that the
output dates form a contiguous run). -/
def next_day (leap : Bool) : Nat × Nat × Nat → Nat × Nat × Nat
  | (y, m, d) =>
    if d < monthLength leap m then (y, m, d + 1)
    else if m < 12 then (y, m + 1, 1)
    else (y + 1, 1, 1)

/-- Spec notion: `ds` is the contiguous ascending run of the calendar
days of year `y`, from January 1 to December 31, each date followed by
its calendar successor. -/
def calendarRun (leap : Bool) (y : Nat) (ds : List (Nat × Nat × Nat)) : Prop :=
  ds.getD 0 (0, 0, 0) = (y, 1, 1) ∧
  ds.getD (ds.length - 1) (0, 0, 0) = (y, 12, 31) ∧
  ∀ k, k + 1 < ds.length →
    ds.getD (k + 1) (0, 0, 0) = next_day leap (ds.getD k (0, 0, 0))

/-- One day-of-year step stays a calendar-successor step: checked as a
boolean so the 365/366 instances can be settled by evaluation. -/
def stepOK (b : Bool) (k : Nat) : Bool :=
  let p := dateOfOrdinal b k
  let q := dateOfOrdinal b (k + 1)
  (decide (p.2 < monthLength b p.1) && (q == (p.1, p.2 + 1))) ||
  ((!decide (p.2 < monthLength b p.1)) && decide (p.1 < 12) && (q == (p.1 + 1, 1)))

set_option maxRecDepth 4000 in
set_option maxHeartbeats 1000000 in
lemma stepOK_leap : ∀ k < 365, stepOK true k = true := by decide

set_option maxRecDepth 4000 in
set_option maxHeartbeats 1000000 in
lemma stepOK_common : ∀ k < 364, stepOK false k = true := by decide

lemma stepOK_next_day (b : Bool) (k y : Nat) (h : stepOK b k = true) :
    (y, (dateOfOrdinal b (k + 1)).1, (dateOfOrdinal b (k + 1)).2) =
      next_day b (y, (dateOfOrdinal b k).1, (dateOfOrdinal b k).2) := by
  unfold stepOK at h
  simp only [Bool.or_eq_true, Bool.and_eq_true, Bool.not_eq_true',
    decide_eq_false_iff_not, decide_eq_true_eq, beq_iff_eq] at h
  simp only [next_day]
  rcases h with ⟨h1, h2⟩ | ⟨⟨h1, h2⟩, h3⟩
  · rw [h2, if_pos h1]
  · rw [h3, if_neg h1, if_pos h2]

lemma getD_map_range {α : Type} (f : Nat → α) (n k : Nat) (z : α)
    (h : k < n) : ((List.range n).map f).getD k z = f k := by
  rw [List.getD_eq_getElem?_getD, List.getElem?_map, List.getElem?_range h]
  rfl

lemma vmax_eq_zero_iff (l : List Nat) : vmax l = 0 ↔ ∀ v ∈ l, v = 0 := by
  induction l with
  | nil => simp [vmax]
  | cons a as ih => simp [vmax, Nat.max_eq_zero_iff, ih]

/-- `build_calendar` with its let-bindings resolved. -/
lemma build_calendar_def (year : Nat) (mt : List (Nat × Nat))
    (trips : List Trip) :
    build_calendar year mt trips =
      if mt = [] then Except.error "max() arg is an empty sequence"
      else if vmax (mt.map Prod.snd) = 0 then Except.error "division by zero"
      else Except.ok ((List.range (if isleap year then 366 else 365)).map
        (day_row year (isleap year) mt (vmax (mt.map Prod.snd)) trips)) := by
  unfold build_calendar
  split
  · rfl
  · rfl

/-- C1: For the feature record with coach pressure 1.0, weekday Friday,
season Winter, trip count 1 and average complexity 1, the classifier's
contributions are pressure +3, Friday +1, Winter +1, one trip +0,
complexity +1, the total score is 6, and the band label is "C+ (45%)". -/
theorem classify_band_scenario :
    pressure_points 1 = 3 ∧ weekday_points "Friday" = 1 ∧
    season_points "Winter" = 1 ∧ trip_points 1 = 0 ∧
    band_score ⟨1, "Friday", "Winter", 1, 1⟩ = 6 ∧
    (classify_band ⟨1, "Friday", "Winter", 1, 1⟩).1 = "C+ (45%)" := by
  refine ⟨?_, ?_, ?_, ?_, ?_, ?_⟩ <;>
    norm_num [classify_band, band_score, pressure_points, weekday_points,
      season_points, trip_points]

/-- C2: For every feature record (average complexity in [-1, 1]), the
classifier returns exactly one band from the fixed six-label set, chosen
by the highest score threshold (7, 6, 5, 4, 3, else) not exceeding the
computed score; being a function of the record, it is total and has no
error path or side effect. -/
theorem classify_band_total (r : FeatureRow)
    (h1 : -1 ≤ r.avgComplexity) (h2 : r.avgComplexity ≤ 1) :
    (classify_band r).1 ∈ bandLabels ∧
    (band_score r ≥ 7 → (classify_band r).1 = "B (50%)") ∧
    (band_score r < 7 → band_score r ≥ 6 → (classify_band r).1 = "C+ (45%)") ∧
    (band_score r < 6 → band_score r ≥ 5 → (classify_band r).1 = "C (40%)") ∧
    (band_score r < 5 → band_score r ≥ 4 → (classify_band r).1 = "D+ (35%)") ∧
    (band_score r < 4 → band_score r ≥ 3 → (classify_band r).1 = "D (30%)") ∧
    (band_score r < 3 → (classify_band r).1 = "E+ (25%)") := by
  simp only [classify_band]
  split_ifs with a b c d e <;>
    refine ⟨by decide, ?_, ?_, ?_, ?_, ?_, ?_⟩ <;> intros <;>
      first | rfl | linarith

/-- C2 witness: the theorem applied at a concrete feature record. -/
theorem classify_band_total_witness :
    (classify_band ⟨0, "Monday", "Summer", 0, 0⟩).1 ∈ bandLabels :=
  (classify_band_total ⟨0, "Monday", "Summer", 0, 0⟩ (by norm_num)
    (by norm_num)).1

/-- C5: Holding weekday, season, trip count and average complexity fixed,
a larger or equal coach pressure never yields a smaller score. -/
theorem band_score_pressure_mono (r1 r2 : FeatureRow)
    (hw : r1.weekday = r2.weekday) (hs : r1.season = r2.season)
    (ht : r1.tripsScheduled = r2.tripsScheduled)
    (hc : r1.avgComplexity = r2.avgComplexity)
    (hp : r2.coachPressure ≤ r1.coachPressure) :
    band_score r2 ≤ band_score r1 := by
  unfold band_score
  rw [hw, hs, ht, hc]
  have hm : pressure_points r2.coachPressure ≤
      pressure_points r1.coachPressure := by
    unfold pressure_points
    split_ifs <;> linarith
  linarith

/-- C5 witness: the theorem applied at two concrete records differing
only in coach pressure. -/
theorem band_score_pressure_mono_witness :
    band_score ⟨1/2, "Monday", "Summer", 0, 0⟩ ≤
      band_score ⟨1, "Monday", "Summer", 0, 0⟩ :=
  band_score_pressure_mono ⟨1, "Monday", "Summer", 0, 0⟩
    ⟨1/2, "Monday", "Summer", 0, 0⟩ rfl rfl rfl rfl (by norm_num)

/-- C6: For every dispatch row, the complexity is computed from the
case-insensitive concatenation of the Route Description, Destination and
Group Name fields: 1 on an urban-keyword match, else -1 on a
leisure-keyword match, else 0, the urban rule checked first; in
particular Destination "Downtown NYC Tour" yields 1 and "Hershey Park"
yields -1. -/
theorem infer_complexity_spec :
    (∀ route dest group : String,
      (containsAny urban_keywords
          (lowerStr (route ++ " " ++ dest ++ " " ++ group)) = true →
        infer_complexity route dest group = 1) ∧
      (containsAny urban_keywords
          (lowerStr (route ++ " " ++ dest ++ " " ++ group)) = false →
        containsAny leisure_keywords
          (lowerStr (route ++ " " ++ dest ++ " " ++ group)) = true →
        infer_complexity route dest group = -1) ∧
      (containsAny urban_keywords
          (lowerStr (route ++ " " ++ dest ++ " " ++ group)) = false →
        containsAny leisure_keywords
          (lowerStr (route ++ " " ++ dest ++ " " ++ group)) = false →
        infer_complexity route dest group = 0)) ∧
    infer_complexity "" "Downtown NYC Tour" "" = 1 ∧
    infer_complexity "" "Hershey Park" "" = -1 := by
  refine ⟨fun route dest group =>
    ⟨fun hu => ?_, fun hu hl => ?_, fun hu hl => ?_⟩, by decide, by decide⟩
  · simp [infer_complexity, hu]
  · simp [infer_complexity, hu, hl]
  · simp [infer_complexity, hu, hl]

/-- C6 witness: the theorem's no-keyword case applied at a concrete
row whose text matches neither keyword set. -/
theorem infer_complexity_spec_witness :
    infer_complexity "Local" "Trenton" "School" = 0 :=
  (infer_complexity_spec.1 "Local" "Trenton" "School").2.2
    (by decide) (by decide)

/-- C7: Every capacity-summary table with fewer than 5 rows makes
monthly-totals extraction fail, with no partial output. -/
theorem extract_short_table_err (t : List (List String)) (h : t.length < 5) :
    ∃ msg, extract_monthly_totals t = Except.error msg := by
  have hd : t.drop 4 = [] := List.drop_eq_nil_of_le (by omega)
  refine ⟨"IndexError: single positional indexer is out-of-bounds", ?_⟩
  unfold extract_monthly_totals
  rw [hd]

/-- C7 witness: the theorem applied at the empty table. -/
theorem extract_short_table_err_witness :
    ∃ msg, extract_monthly_totals [] = Except.error msg :=
  extract_short_table_err [] (by decide)

/-- C10 counterexample: a capacity-summary table with exactly 5 rows
whose header row repeats a month name makes extraction fail (pandas
returns a DataFrame for the duplicated label, so the Series-only `.str`
accessor raises an `AttributeError`); extraction therefore does not
succeed on every 5-row table. -/
theorem extract_header_dup_err :
    ([[], [], [], [], ["January", "January"]] :
      List (List String)).length = 5 ∧
    extract_monthly_totals [[], [], [], [], ["January", "January"]] =
      Except.error
        "AttributeError: Can only use .str accessor with string values" :=
  ⟨rfl, rfl⟩

/-- `extract_monthly_totals` on a five-row table, with the match and the
empty data-row sums resolved. -/
lemma extract_five (a b c d e : List String) :
    extract_monthly_totals [a, b, c, d, e] =
      if month_map.any fun p => decide (2 ≤ List.count p.1 e) then
        Except.error
          "AttributeError: Can only use .str accessor with string values"
      else Except.ok (month_map.filterMap fun p =>
        if p.1 ∈ e then some (p.2, 0) else none) := rfl

/-- C10 amended: every capacity-summary table with exactly 5 rows (four
metadata rows plus the header row, no data rows) whose header row does
not repeat any month name extracts successfully, mapping every month
name present in the header row to a total of 0. -/
theorem extract_header_only (t : List (List String)) (h : t.length = 5)
    (hdup : ∀ p ∈ month_map, List.count p.1 (t.getD 4 []) ≤ 1) :
    ∃ m, extract_monthly_totals t = Except.ok m ∧
      (∀ e ∈ m, e.2 = 0) ∧
      (∀ p ∈ month_map, p.1 ∈ t.getD 4 [] → (p.2, 0) ∈ m) := by
  rcases t with _ | ⟨a, _ | ⟨b, _ | ⟨c, _ | ⟨d, _ | ⟨e, rest⟩⟩⟩⟩⟩ <;>
    simp only [List.length_cons, List.length_nil] at h <;> try omega
  obtain rfl : rest = [] := List.length_eq_zero.mp (by omega)
  have hany : (month_map.any fun p => decide (2 ≤ List.count p.1 e)) = false := by
    rw [List.any_eq_false]
    intro p hp
    have h1 : List.count p.1 e ≤ 1 := hdup p hp
    intro hx
    have h2 : 2 ≤ List.count p.1 e := of_decide_eq_true hx
    omega
  refine ⟨month_map.filterMap fun p => if p.1 ∈ e then some (p.2, 0) else none,
    ?_, ?_, ?_⟩
  · rw [extract_five, hany]
    rfl
  · intro x hx
    rw [List.mem_filterMap] at hx
    obtain ⟨p, hp, hpe⟩ := hx
    by_cases hm : p.1 ∈ e
    · rw [if_pos hm] at hpe
      cases hpe
      rfl
    · rw [if_neg hm] at hpe
      cases hpe
  · intro p hp hmem
    rw [List.mem_filterMap]
    exact ⟨p, hp, by rw [if_pos (show p.1 ∈ e from hmem)]⟩

/-- C10 witness: the theorem applied at a concrete header-only table
with no duplicated month name. -/
theorem extract_header_only_witness :
    ∃ m, extract_monthly_totals [[], [], [], [], ["January", "Totals"]] =
        Except.ok m ∧
      (∀ e ∈ m, e.2 = 0) ∧
      (∀ p ∈ month_map,
        p.1 ∈ ([[], [], [], [], ["January", "Totals"]] :
          List (List String)).getD 4 [] → (p.2, 0) ∈ m) :=
  extract_header_only [[], [], [], [], ["January", "Totals"]] rfl (by decide)

/-- A dispatch table with the two key columns only: `Route Description`,
`Destination` and `Group Name` are all absent. -/
def twoColTable : DTable :=
  { cols := ["Booking ID", "First Departure"]
    rows := [[("Booking ID", Cell.text "B1"),
              ("First Departure", Cell.dateLike (2023, 1, 6) "2023-01-06")]] }

/-- C3 counterexample: a dispatch table missing the required columns
`Route Description`, `Destination` and `Group Name` is normalized
successfully (the missing fields default to the empty string), so a
missing required column is not always fatal. -/
theorem load_dispatch_missing_text_cols_ok :
    "Route Description" ∉ twoColTable.cols ∧
    "Destination" ∉ twoColTable.cols ∧
    "Group Name" ∉ twoColTable.cols ∧
    load_dispatch twoColTable =
      Except.ok [{ date := (2023, 1, 6), complexity := 0 }] := by
  refine ⟨by decide, by decide, by decide, ?_⟩
  rfl

/-- C3 amended: only the `Booking ID` and `First Departure` columns are
required; a dispatch table missing either of them fails with the schema
error (a `KeyError`), while the three descriptive columns may be absent
and are then treated as empty text. -/
theorem load_dispatch_missing_key_col_err (t : DTable)
    (h : "Booking ID" ∉ t.cols ∨ "First Departure" ∉ t.cols) :
    ∃ msg, load_dispatch t = Except.error msg := by
  rcases h with h | h
  · exact ⟨"KeyError: Booking ID", by simp [load_dispatch, h]⟩
  · by_cases hb : "Booking ID" ∈ t.cols
    · exact ⟨"KeyError: First Departure", by simp [load_dispatch, hb, h]⟩
    · exact ⟨"KeyError: Booking ID", by simp [load_dispatch, hb]⟩

/-- C3 amended witness: the theorem applied at a concrete table with no
columns at all. -/
theorem load_dispatch_missing_key_col_err_witness :
    ∃ msg, load_dispatch { cols := [], rows := [] } = Except.error msg :=
  load_dispatch_missing_key_col_err { cols := [], rows := [] }
    (Or.inl (by simp))

lemma round2_zero : round2 0 = 0 := by
  norm_num [round2, roundHalfEven, ratFloor]

/-- C9: A day whose date matches no trip gets trip count 0 and average
complexity exactly 0 (never undefined); in particular this holds for
every day when the normalized dispatch list is empty. -/
theorem day_row_no_trips (year : Nat) (leap : Bool) (mt : List (Nat × Nat))
    (mp : Nat) (trips : List Trip) (i : Nat)
    (h : ∀ t ∈ trips,
      t.date ≠ (year, (dateOfOrdinal leap i).1, (dateOfOrdinal leap i).2)) :
    (day_row year leap mt mp trips i).tripsScheduled = 0 ∧
    (day_row year leap mt mp trips i).avgComplexity = 0 := by
  have hfil : (trips.filter fun t =>
      decide (t.date = (year, (dateOfOrdinal leap i).1,
        (dateOfOrdinal leap i).2))) = [] := by
    rw [List.filter_eq_nil_iff]
    intro t ht
    simpa using h t ht
  have e1 : (day_row year leap mt mp trips i).tripsScheduled =
      (trips.filter fun t =>
        decide (t.date = (year, (dateOfOrdinal leap i).1,
          (dateOfOrdinal leap i).2))).length := rfl
  have e2 : (day_row year leap mt mp trips i).avgComplexity =
      round2 (if 0 < (trips.filter fun t =>
          decide (t.date = (year, (dateOfOrdinal leap i).1,
            (dateOfOrdinal leap i).2))).length then
        (((trips.filter fun t =>
          decide (t.date = (year, (dateOfOrdinal leap i).1,
            (dateOfOrdinal leap i).2))).map Trip.complexity).sum : Rat) /
          ((trips.filter fun t =>
            decide (t.date = (year, (dateOfOrdinal leap i).1,
              (dateOfOrdinal leap i).2))).length : Rat)
      else 0) := rfl
  rw [e1, e2, hfil]
  simp [round2_zero]

/-- C9 witness: the theorem applied at a concrete day with an empty trip
list. -/
theorem day_row_no_trips_witness :
    (day_row 2023 false [(1, 100)] 100 [] 5).tripsScheduled = 0 ∧
    (day_row 2023 false [(1, 100)] 100 [] 5).avgComplexity = 0 :=
  day_row_no_trips 2023 false [(1, 100)] 100 [] 5 (by simp)

/-- C8: An empty or all-zero monthly pressure map makes the calendar
builder fail before producing any row (the error carries no rows); a map
with at least one positive value makes the pressure-ratio division
succeed for every day of the year. -/
theorem build_calendar_pressure_guard (year : Nat) (mt : List (Nat × Nat))
    (trips : List Trip) :
    ((mt = [] ∨ ∀ p ∈ mt, p.2 = 0) →
      ∃ msg, build_calendar year mt trips = Except.error msg) ∧
    ((∃ p ∈ mt, 0 < p.2) →
      ∃ rows, build_calendar year mt trips = Except.ok rows) := by
  constructor
  · intro h
    by_cases hemp : mt = []
    · exact ⟨"max() arg is an empty sequence",
        by rw [build_calendar_def, if_pos hemp]⟩
    · have hz : ∀ p ∈ mt, p.2 = 0 := h.resolve_left hemp
      have hv : vmax (mt.map Prod.snd) = 0 := by
        rw [vmax_eq_zero_iff]
        intro v hvm
        obtain ⟨p, hp, rfl⟩ := List.mem_map.mp hvm
        exact hz p hp
      exact ⟨"division by zero",
        by rw [build_calendar_def, if_neg hemp, if_pos hv]⟩
  · rintro ⟨p, hp, hpos⟩
    have hemp : mt ≠ [] := by rintro rfl; simp at hp
    have hv : vmax (mt.map Prod.snd) ≠ 0 := by
      intro h0
      have := (vmax_eq_zero_iff _).mp h0 p.2 (List.mem_map_of_mem Prod.snd hp)
      omega
    exact ⟨(List.range (if isleap year then 366 else 365)).map
        (day_row year (isleap year) mt (vmax (mt.map Prod.snd)) trips),
      by rw [build_calendar_def, if_neg hemp, if_neg hv]⟩

/-- C8 witness: the theorem applied at an empty map (error) and at a map
with one positive value (success). -/
theorem build_calendar_pressure_guard_witness :
    (∃ msg, build_calendar 2023 [] [] = Except.error msg) ∧
    (∃ rows, build_calendar 2023 [(1, 3)] [] = Except.ok rows) :=
  ⟨(build_calendar_pressure_guard 2023 [] []).1 (Or.inl rfl),
   (build_calendar_pressure_guard 2023 [(1, 3)] []).2
     ⟨(1, 3), by decide, by decide⟩⟩

/-- C4: For every valid year (2020–2100), valid pressure map (nonempty,
with a positive value) and trip list, the calendar has exactly 366 rows
in a leap year and 365 otherwise, and its Full Date values form the
contiguous ascending run of calendar days from January 1 to
December 31. -/
theorem build_calendar_days (year : Nat) (mt : List (Nat × Nat))
    (trips : List Trip) (hy1 : 2020 ≤ year) (hy2 : year ≤ 2100)
    (hne : mt ≠ []) (hpos : 0 < vmax (mt.map Prod.snd)) :
    ∃ rows, build_calendar year mt trips = Except.ok rows ∧
      rows.length = (if isleap year then 366 else 365) ∧
      calendarRun (isleap year) year (rows.map CalendarRow.fullDate) := by
  have hv : vmax (mt.map Prod.snd) ≠ 0 := Nat.pos_iff_ne_zero.mp hpos
  refine ⟨(List.range (if isleap year then 366 else 365)).map
    (day_row year (isleap year) mt (vmax (mt.map Prod.snd)) trips),
    by rw [build_calendar_def, if_neg hne, if_neg hv], ?_, ?_⟩
  · simp
  · rw [List.map_map]
    have hg : CalendarRow.fullDate ∘
        day_row year (isleap year) mt (vmax (mt.map Prod.snd)) trips =
        fun i => (year, (dateOfOrdinal (isleap year) i).1,
          (dateOfOrdinal (isleap year) i).2) := rfl
    rw [hg]
    cases hb : isleap year with
    | false =>
      simp only [Bool.false_eq_true, if_false]
      unfold calendarRun
      refine ⟨?_, ?_, ?_⟩
      · rw [getD_map_range _ _ _ _ (by norm_num)]
        rfl
      · simp only [List.length_map, List.length_range]
        rw [getD_map_range _ _ _ _ (by norm_num)]
        rfl
      · simp only [List.length_map, List.length_range]
        intro k hk
        rw [getD_map_range _ _ _ _ (by omega),
          getD_map_range _ _ _ _ (by omega)]
        exact stepOK_next_day false k year (stepOK_common k (by omega))
    | true =>
      simp only [if_true]
      unfold calendarRun
      refine ⟨?_, ?_, ?_⟩
      · rw [getD_map_range _ _ _ _ (by norm_num)]
        rfl
      · simp only [List.length_map, List.length_range]
        rw [getD_map_range _ _ _ _ (by norm_num)]
        rfl
      · simp only [List.length_map, List.length_range]
        intro k hk
        rw [getD_map_range _ _ _ _ (by omega),
          getD_map_range _ _ _ _ (by omega)]
        exact stepOK_next_day true k year (stepOK_leap k (by omega))

/-- C4 witness: the theorem applied at a concrete leap year with a
concrete one-month map. -/
theorem build_calendar_days_witness :
    ∃ rows, build_calendar 2024 [(1, 2)] [] = Except.ok rows ∧
      rows.length = (if isleap 2024 then 366 else 365) ∧
      calendarRun (isleap 2024) 2024 (rows.map CalendarRow.fullDate) :=
  build_calendar_days 2024 [(1, 2)] [] (by norm_num) (by norm_num)
    (by simp) (by decide)
